import Mathlib

/-
Verification of the Phone-to-Country-Recognizer service (src/main.py).

The service is a thin orchestration over two external libraries:
* the numbering-plan library (python `phonenumbers`), modelled here as an
  abstract interface `PhoneLib` over an abstract type of parsed numbers;
* the ISO-3166 country table (python `pycountry`), modelled as a list of
  `CountryRecord` entries queried by alpha-2 code.

Pure functions of the source become Lean functions; the `lru_cache`
decorator becomes explicit state passing over a `CacheState`; python
exceptions become `Except` results.
-/

namespace PhoneRecognizer

/-- A record of the external ISO country table (`pycountry.countries`).
Every ISO-3166-1 entry carries a name and the three identifier codes. -/
structure CountryRecord where
  name : String
  alpha_2 : String
  alpha_3 : String
  numeric : String
deriving DecidableEq, Repr

/-- The projected country dictionary built by `get_country_info` in
src/main.py lines 95-100, and the `CountryInfo` pydantic model of the
listing endpoint (same four fields). -/
structure CountryInfo where
  name : String
  alpha_2 : String
  alpha_3 : String
  numeric : String
deriving DecidableEq, Repr

/-- Python `s.upper()` as used on region codes: uppercase every
character (ASCII case mapping, which covers alpha-2 codes). -/
def pyUpper (s : String) : String :=
  ⟨s.data.map Char.toUpper⟩

/-- Python `s.startswith(pre)`: the characters of `pre` are a prefix of
the characters of `s`. -/
def pyStartsWith (s pre : String) : Bool :=
  pre.data.isPrefixOf s.data

/-- Python string comparison `a <= b` on character lists: lexicographic
by code point, as `sorted` uses on the `name` key. -/
def charListLe : List Char → List Char → Bool
  | [], _ => true
  | _ :: _, [] => false
  | a :: as, b :: bs => if a < b then true else if b < a then false else charListLe as bs

/-- `pycountry.countries.get(alpha_2=code)`: query the table by exact
alpha-2 code. -/
def countriesGet (table : List CountryRecord) (code : String) : Option CountryRecord :=
  table.find? (fun c => c.alpha_2 == code)

/-- A failure of `phonenumbers.parse`: either the library's documented
`NumberParseException` (which carries an error-type code and a message,
and prints as "(type) message"), or any other exception, carrying its
message. The two are distinguished because src/main.py catches them in
separate `except` branches. -/
inductive ParseFailure where
  | numberParse (error_type : Int) (msg : String)
  | other (msg : String)
deriving DecidableEq, Repr

/-- `str(e)` for a `NumberParseException e`: the library renders it as
"(error_type) message", which is never the empty string. -/
def numberParseExceptionStr (error_type : Int) (msg : String) : String :=
  "(" ++ toString error_type ++ ") " ++ msg

/-- The abstract interface of the external numbering-plan library
(python `phonenumbers`), over an abstract type `Num` of parsed numbers.
The fields are exactly the operations src/main.py calls. `str` is
python's `str()` rendering of a parsed-number object. -/
structure PhoneLib (Num : Type) where
  parse : String → Option String → Except ParseFailure Num
  region_code_for_number : Num → Option String
  number_type : Num → Int
  is_valid_number : Num → Bool
  is_possible_number : Num → Bool
  format_number : Num → Int → String
  str : Num → String

/- The `phonenumbers.PhoneNumberType` enumeration constants of the
python library. -/
namespace PhoneNumberType

def FIXED_LINE : Int := 0
def MOBILE : Int := 1
def FIXED_LINE_OR_MOBILE : Int := 2
def TOLL_FREE : Int := 3
def PREMIUM_RATE : Int := 4
def SHARED_COST : Int := 5
def VOIP : Int := 6
def PERSONAL_NUMBER : Int := 7
def PAGER : Int := 8
def UAN : Int := 9
def VOICEMAIL : Int := 10
def UNKNOWN : Int := 99

end PhoneNumberType

/- The `phonenumbers.PhoneNumberFormat` enumeration constants of the
python library. -/
namespace PhoneNumberFormat

def E164 : Int := 0
def INTERNATIONAL : Int := 1
def NATIONAL : Int := 2
def RFC3966 : Int := 3

end PhoneNumberFormat

/-- `_NUMBER_TYPE_MAPPING` of src/main.py lines 74-86: the dict from
`PhoneNumberType` values to labels, as a partial function. The key
`VOICEMAIL` (= 10) is absent from the dict in the source. -/
def _NUMBER_TYPE_MAPPING (n : Int) : Option String :=
  if n = PhoneNumberType.MOBILE then some "MOBILE"
  else if n = PhoneNumberType.FIXED_LINE then some "FIXED_LINE"
  else if n = PhoneNumberType.FIXED_LINE_OR_MOBILE then some "FIXED_LINE_OR_MOBILE"
  else if n = PhoneNumberType.TOLL_FREE then some "TOLL_FREE"
  else if n = PhoneNumberType.PREMIUM_RATE then some "PREMIUM_RATE"
  else if n = PhoneNumberType.SHARED_COST then some "SHARED_COST"
  else if n = PhoneNumberType.VOIP then some "VOIP"
  else if n = PhoneNumberType.PERSONAL_NUMBER then some "PERSONAL_NUMBER"
  else if n = PhoneNumberType.PAGER then some "PAGER"
  else if n = PhoneNumberType.UAN then some "UAN"
  else if n = PhoneNumberType.UNKNOWN then some "UNKNOWN"
  else none

/-- `get_number_type_name` of src/main.py lines 106-107:
`_NUMBER_TYPE_MAPPING.get(number_type, "UNKNOWN")`. -/
def get_number_type_name (number_type : Int) : String :=
  (_NUMBER_TYPE_MAPPING number_type).getD "UNKNOWN"

/-- Python truthiness test `not x` for an `Optional[str]` value: true
exactly when the value is `None` or the empty string. -/
def optFalsy : Option String → Bool
  | none => true
  | some s => s == ""

/-- `get_country_info` of src/main.py lines 89-103, without the
`lru_cache` layer (see `get_country_info_cached` for the cache).
The function's annotation says `str`, but `lookup_phone_number` calls it
with `region_code_for_number`'s result, which may be python `None`; in
that case `country_code.upper()` raises `AttributeError`, the blanket
`except Exception` catches it, and the function returns `None` — hence
the `none → none` branch here. Otherwise the code is uppercased and the
table queried by alpha-2; a missing record gives `None`, a found record
is projected to the four-field dict. -/
def get_country_info (table : List CountryRecord) :
    Option String → Option CountryInfo
  | none => none
  | some code =>
    match countriesGet table (pyUpper code) with
    | none => none
    | some c =>
      some { name := c.name, alpha_2 := c.alpha_2, alpha_3 := c.alpha_3, numeric := c.numeric }

/-- `validate_api_token` of src/main.py lines 110-113, parameterized by
the configured `API_TOKEN`. `if not x_api_token: return False` rejects
an absent or empty credential; otherwise the result is exact string
equality with the configured token. -/
def validate_api_token (api_token : String) (x_api_token : Option String) : Bool :=
  match x_api_token with
  | none => false
  | some s => if s == "" then false else s == api_token

/-- The state of the `functools.lru_cache(maxsize=256)` wrapper around
`get_country_info`: an association list from the RAW argument (the cache
key is the argument as passed, before any normalization inside the
function body) to the memoized result, most-recently-used first. -/
structure CacheState where
  entries : List (Option String × Option CountryInfo)
deriving DecidableEq, Repr

/-- The empty cache, the wrapper's state at process start. -/
def CacheState.empty : CacheState := ⟨[]⟩

/-- The `maxsize` argument of the `lru_cache` decorator. -/
def CACHE_MAXSIZE : Nat := 256

/-- The result of one call through the cached wrapper: the returned
value, the wrapper's new state, and whether the underlying
`get_country_info` body (the country-table query) actually ran. -/
structure CacheResult where
  value : Option CountryInfo
  state : CacheState
  queried : Bool
deriving DecidableEq, Repr

/-- One call to the `lru_cache(maxsize=256)`-wrapped `get_country_info`
of src/main.py line 89. On a hit the memoized value is returned and the
entry moves to most-recently-used position; on a miss the body runs,
the result is inserted, and the least-recently-used entry is evicted
when the size would exceed 256. The key is the raw argument. -/
def get_country_info_cached (table : List CountryRecord) (st : CacheState)
    (k : Option String) : CacheResult :=
  match st.entries.find? (fun e => e.fst == k) with
  | some e =>
    { value := e.snd
      state := ⟨(e.fst, e.snd) :: st.entries.eraseP (fun x => x.fst == k)⟩
      queried := false }
  | none =>
    let v := get_country_info table k
    let es := (k, v) :: st.entries
    { value := v
      state := ⟨if CACHE_MAXSIZE < es.length then es.dropLast else es⟩
      queried := true }

/-- Every cache entry holds exactly the value the underlying function
computes for its key (true of any memoization of a pure function). -/
def CacheConsistent (table : List CountryRecord) (st : CacheState) : Prop :=
  ∀ e ∈ st.entries, e.snd = get_country_info table e.fst

/-- The `ValidationResult` pydantic model of src/main.py lines 47-52. -/
structure ValidationResult where
  phone : String
  is_valid : Bool
  is_possible : Bool
  country_code : Option String
  error : Option String
deriving DecidableEq, Repr

/-- The `PhoneNumberInfo` pydantic model of src/main.py lines 34-44. -/
structure PhoneNumberInfo where
  phone_number : String
  country_code : String
  country_name : String
  country_region : Option String
  number_type : String
  is_valid : Bool
  is_possible : Bool
  formatted_e164 : String
  formatted_national : String
  timezone : Option String
deriving DecidableEq, Repr

/-- The `CountriesResponse` pydantic model of src/main.py lines 62-64. -/
structure CountriesResponse where
  total : Nat
  countries : List CountryInfo
deriving DecidableEq, Repr

/-- The outcome of the `/lookup` handler past the auth check: either the
response record, or an `HTTPException` with status code and detail. -/
inductive LookupResult where
  | ok (info : PhoneNumberInfo)
  | error (statusCode : Nat) (detail : String)
deriving DecidableEq, Repr

/-- The HTTP status of a `LookupResult` (200 for a success body). -/
def LookupResult.status : LookupResult → Nat
  | .ok _ => 200
  | .error c _ => c

/-- Python's `str()` of an `Optional[str]` as interpolated into the
404 detail f-string: `None` renders as the text "None". -/
def pyStrOpt : Option String → String
  | none => "None"
  | some s => s

/-- `lookup_phone_number` of src/main.py lines 126-177, after the auth
check, parameterized by the numbering-plan library and the country
table. Lines 139-140 prefix "+" when the phone does not start with "+"
and the country hint is falsy (absent or empty). A `NumberParseException`
and any other parse exception both map to HTTP 400 (lines 142-149, with
their two distinct detail strings). The source then resolves the region
through the lru-cached `get_country_info`, whose value coincides with
the pure `get_country_info` (the cache memoizes a pure function); the
resolver maps an absent region code to `none` (caught `AttributeError`),
so the 404 branch of line 154 fires both when the region is absent and
when the table has no record for it — the match below splits these two
definitionally-equal paths. Otherwise the composed record of lines
166-177 is returned. -/
def lookup_phone_number {Num : Type} (lib : PhoneLib Num)
    (table : List CountryRecord) (phone : String) (country : Option String) :
    LookupResult :=
  let phone1 := if pyStartsWith phone "+" = false ∧ optFalsy country = true
    then "+" ++ phone else phone
  match lib.parse phone1 country with
  | .error (.numberParse _ _) => .error 400 "Invalid phone number format"
  | .error (.other _) => .error 400 "Error parsing phone number"
  | .ok parsed_number =>
    let country_code := lib.region_code_for_number parsed_number
    match country_code with
    | none => .error 404 ("Country not found: " ++ pyStrOpt none)
    | some rc =>
      match get_country_info table (some rc) with
      | none => .error 404 ("Country not found: " ++ rc)
      | some country_info =>
        .ok { phone_number := lib.str parsed_number
              country_code := rc
              country_name := country_info.name
              country_region := none
              number_type := get_number_type_name (lib.number_type parsed_number)
              is_valid := lib.is_valid_number parsed_number
              is_possible := lib.is_possible_number parsed_number
              formatted_e164 := lib.format_number parsed_number PhoneNumberFormat.E164
              formatted_national := lib.format_number parsed_number PhoneNumberFormat.NATIONAL
              timezone := none }

/-- `validate_phone_number` of src/main.py lines 180-219, after the auth
check. The same "+"-coercion as in `lookup_phone_number` is applied
(lines 193-194). Only `NumberParseException` is caught (line 211) and
converted into a failed `ValidationResult` carrying `str(e)`; any other
exception raised by `phonenumbers.parse` would propagate out of the
handler, modelled as `Except.error` with its message. -/
def validate_phone_number {Num : Type} (lib : PhoneLib Num)
    (phone : String) (country : Option String) :
    Except String ValidationResult :=
  let phone1 := if pyStartsWith phone "+" = false ∧ optFalsy country = true
    then "+" ++ phone else phone
  match lib.parse phone1 country with
  | .ok parsed_number =>
    .ok { phone := phone1
          is_valid := lib.is_valid_number parsed_number
          is_possible := lib.is_possible_number parsed_number
          country_code := lib.region_code_for_number parsed_number
          error := none }
  | .error (.numberParse t m) =>
    .ok { phone := phone1
          is_valid := false
          is_possible := false
          country_code := none
          error := some (numberParseExceptionStr t m) }
  | .error (.other m) => .error m

/-- The projection applied to each `pycountry` record by the loop of
src/main.py lines 231-240. -/
def projectCountry (c : CountryRecord) : CountryInfo :=
  { name := c.name, alpha_2 := c.alpha_2, alpha_3 := c.alpha_3, numeric := c.numeric }

/-- `get_supported_countries` of src/main.py lines 222-248, after the
auth check: project every table record, sort ascending by `name`
(python's stable `sorted` with a key function), and return the list
with its length as `total`. -/
def get_supported_countries (table : List CountryRecord) : CountriesResponse :=
  let countries := table.map projectCountry
  let countries_sorted := countries.mergeSort (fun a b => charListLe a.name.data b.name.data)
  { total := countries_sorted.length, countries := countries_sorted }

/-- Shape of a canonical E.164 string: a "+" followed by at least one
character, all of them digits, no separators. -/
def isE164Shape (s : String) : Bool :=
  match s.data with
  | '+' :: rest => !rest.isEmpty && rest.all Char.isDigit
  | _ => false

/-- A two-record excerpt of the ISO country table, used to instantiate
the theorems at concrete inputs. -/
def demoTable : List CountryRecord :=
  [ { name := "Greece", alpha_2 := "GR", alpha_3 := "GRC", numeric := "300" },
    { name := "United States", alpha_2 := "US", alpha_3 := "USA", numeric := "840" } ]

/-- A concrete instance of the numbering-plan interface that parses
exactly the number "+14155552671" as a valid, possible US mobile number
(the behaviour the real library shows on that input), used to
instantiate the theorems at concrete inputs. -/
def demoLib : PhoneLib Unit :=
  { parse := fun p _ =>
      if p = "+14155552671" then .ok ()
      else .error (.numberParse 1 "Could not interpret numbers after plus-sign.")
    region_code_for_number := fun _ => some "US"
    number_type := fun _ => PhoneNumberType.MOBILE
    is_valid_number := fun _ => true
    is_possible_number := fun _ => true
    format_number := fun _ f =>
      if f = PhoneNumberFormat.E164 then "+14155552671" else "(415) 555-2671"
    str := fun _ => "Country Code: 1 National Number: 4155552671" }

/-- The country record the concrete table holds for the United States,
as projected by the resolver. -/
def demoUSInfo : CountryInfo :=
  { name := "United States", alpha_2 := "US", alpha_3 := "USA", numeric := "840" }

/-- The composed response record for looking up "+14155552671" with the
concrete instances. -/
def demoInfo : PhoneNumberInfo :=
  { phone_number := "Country Code: 1 National Number: 4155552671"
    country_code := "US"
    country_name := "United States"
    country_region := none
    number_type := "MOBILE"
    is_valid := true
    is_possible := true
    formatted_e164 := "+14155552671"
    formatted_national := "(415) 555-2671"
    timezone := none }

/-- A concrete instance of the numbering-plan interface exercising the
documented behaviour of `region_code_for_number` that returns `None`:
every input parses (to a structurally possible but invalid number), and
no region can be inferred — as the real library does on a number whose
national part matches no region of its calling code. -/
def noRegionLib : PhoneLib Unit :=
  { parse := fun _ _ => .ok ()
    region_code_for_number := fun _ => none
    number_type := fun _ => PhoneNumberType.UNKNOWN
    is_valid_number := fun _ => false
    is_possible_number := fun _ => true
    format_number := fun _ _ => "+10000000000"
    str := fun _ => "Country Code: 1 National Number: 0" }

theorem optFalsy_eq_true_iff (o : Option String) :
    optFalsy o = true ↔ (o = none ∨ o = some "") := by
  cases o with
  | none => simp [optFalsy]
  | some s => simp [optFalsy]

theorem numberParseExceptionStr_ne_empty (t : Int) (m : String) :
    numberParseExceptionStr t m ≠ "" := by
  intro h
  have hlen := congrArg String.length h
  simp only [numberParseExceptionStr, String.length_append] at hlen
  have h1 : ("(" : String).length = 1 := by decide
  have h0 : ("" : String).length = 0 := by decide
  omega

theorem pyStartsWith_append_plus (s : String) :
    pyStartsWith ("+" ++ s) "+" = true := by
  have hdata : ("+" ++ s).data = '+' :: s.data := by
    show ("+".data ++ s.data) = '+' :: s.data
    rfl
  simp [pyStartsWith, hdata, List.isPrefixOf]

/-- C5: get_number_type_name maps each of the 11 enumeration values of
the source dict to its exact fixed label, and every integer outside that
known set (including the library value VOICEMAIL = 10, absent from the
dict) to "UNKNOWN". -/
theorem C5_classify_total :
    (get_number_type_name PhoneNumberType.MOBILE = "MOBILE"
      ∧ get_number_type_name PhoneNumberType.FIXED_LINE = "FIXED_LINE"
      ∧ get_number_type_name PhoneNumberType.FIXED_LINE_OR_MOBILE = "FIXED_LINE_OR_MOBILE"
      ∧ get_number_type_name PhoneNumberType.TOLL_FREE = "TOLL_FREE"
      ∧ get_number_type_name PhoneNumberType.PREMIUM_RATE = "PREMIUM_RATE"
      ∧ get_number_type_name PhoneNumberType.SHARED_COST = "SHARED_COST"
      ∧ get_number_type_name PhoneNumberType.VOIP = "VOIP"
      ∧ get_number_type_name PhoneNumberType.PERSONAL_NUMBER = "PERSONAL_NUMBER"
      ∧ get_number_type_name PhoneNumberType.PAGER = "PAGER"
      ∧ get_number_type_name PhoneNumberType.UAN = "UAN"
      ∧ get_number_type_name PhoneNumberType.UNKNOWN = "UNKNOWN")
    ∧ ∀ n : Int,
        n ∉ ([PhoneNumberType.MOBILE, PhoneNumberType.FIXED_LINE,
              PhoneNumberType.FIXED_LINE_OR_MOBILE, PhoneNumberType.TOLL_FREE,
              PhoneNumberType.PREMIUM_RATE, PhoneNumberType.SHARED_COST,
              PhoneNumberType.VOIP, PhoneNumberType.PERSONAL_NUMBER,
              PhoneNumberType.PAGER, PhoneNumberType.UAN,
              PhoneNumberType.UNKNOWN] : List Int) →
        get_number_type_name n = "UNKNOWN" := by
  constructor
  · exact ⟨by decide, by decide, by decide, by decide, by decide, by decide,
      by decide, by decide, by decide, by decide, by decide⟩
  · intro n hn
    simp only [List.mem_cons, List.not_mem_nil, or_false, not_or] at hn
    obtain ⟨h1, h2, h3, h4, h5, h6, h7, h8, h9, h10, h11⟩ := hn
    simp [get_number_type_name, _NUMBER_TYPE_MAPPING, h1, h2, h3, h4, h5, h6, h7, h8, h9, h10, h11]

/-- C5 witness: the library value VOICEMAIL = 10 is outside the known
set and classifies as UNKNOWN. -/
theorem C5_classify_total_witness :
    get_number_type_name PhoneNumberType.VOICEMAIL = "UNKNOWN" :=
  C5_classify_total.2 PhoneNumberType.VOICEMAIL (by decide)

/-- C6: with a non-empty configured secret, authenticate rejects an
absent credential, rejects the empty credential, and accepts a presented
credential exactly when it equals the configured secret. -/
theorem C6_authenticate (api_token : String) (h : api_token ≠ "") :
    validate_api_token api_token none = false
    ∧ validate_api_token api_token (some "") = false
    ∧ ∀ s : String, (validate_api_token api_token (some s) = true ↔ s = api_token) := by
  refine ⟨rfl, by simp [validate_api_token], fun s => ?_⟩
  by_cases hs : s = ""
  · subst hs
    simp [validate_api_token, Ne.symm h]
  · simp [validate_api_token, hs]

/-- C6 witness at the default configured secret of src/main.py line 15:
the absent credential is rejected and the exact secret accepted. -/
theorem C6_authenticate_witness :
    validate_api_token "dev-token-change-in-production" none = false
    ∧ validate_api_token "dev-token-change-in-production"
        (some "dev-token-change-in-production") = true :=
  ⟨(C6_authenticate "dev-token-change-in-production" (by decide)).1,
    ((C6_authenticate "dev-token-change-in-production" (by decide)).2.2
      "dev-token-change-in-production").mpr rfl⟩

/-- C8: in both handlers the phone string is "+"-prefixed exactly when
it does not already start with "+" and the country hint is not given
(absent or empty, python falsiness); validate echoes that possibly
prefixed string in its `phone` field, and prefixing the string up front
leaves both handlers' behaviour unchanged (the coercion is what both
parse). -/
theorem C8_plus_coercion {Num : Type} (lib : PhoneLib Num)
    (table : List CountryRecord) (phone : String) (country : Option String) :
    (∀ r, validate_phone_number lib phone country = .ok r →
        r.phone = if pyStartsWith phone "+" = false ∧ (country = none ∨ country = some "")
          then "+" ++ phone else phone)
    ∧ (pyStartsWith phone "+" = false → (country = none ∨ country = some "") →
        lookup_phone_number lib table phone country
          = lookup_phone_number lib table ("+" ++ phone) country
        ∧ validate_phone_number lib phone country
          = validate_phone_number lib ("+" ++ phone) country) := by
  constructor
  · intro r hr
    have hcond : (pyStartsWith phone "+" = false ∧ optFalsy country = true)
        ↔ (pyStartsWith phone "+" = false ∧ (country = none ∨ country = some "")) := by
      rw [optFalsy_eq_true_iff]
    rcases hp : lib.parse
        (if pyStartsWith phone "+" = false ∧ optFalsy country = true
          then "+" ++ phone else phone) country with f | n
    · cases f with
      | numberParse t m =>
        simp only [validate_phone_number, hp] at hr
        cases hr
        simp only [hcond]
      | other m =>
        simp only [validate_phone_number, hp] at hr
        cases hr
    · simp only [validate_phone_number, hp] at hr
      cases hr
      simp only [hcond]
  · intro h1 h2
    have hfalsy : optFalsy country = true := (optFalsy_eq_true_iff country).mpr h2
    have hplus := pyStartsWith_append_plus phone
    constructor
    · simp only [lookup_phone_number, h1, hfalsy, hplus]
      simp
    · simp only [validate_phone_number, h1, hfalsy, hplus]
      simp

/-- C8 witness: a hintless number without "+" is handled exactly as its
"+"-prefixed form. -/
theorem C8_plus_coercion_witness :
    lookup_phone_number demoLib demoTable "14155552671" none
      = lookup_phone_number demoLib demoTable "+14155552671" none :=
  ((C8_plus_coercion demoLib demoTable "14155552671" none).2 (by decide) (Or.inl rfl)).1

/-- C1 (amended): validate never raises when parse failures are the
library's NumberParseException; a parse failure is converted into a
result with is_valid false, is_possible false, country_code absent and
a non-empty error; error is set iff the input failed to parse; on a
successful parse the error is absent, validity and possibility are the
library's checks (so a parseable but invalid number has is_valid false
with no error text), and country_code is the library's inferred region —
present exactly when a region is inferred, which can fail even on a
successful parse. -/
theorem C1_validate_amended {Num : Type} (lib : PhoneLib Num)
    (phone : String) (country : Option String)
    (hlib : ∀ p c f, lib.parse p c = .error f → ∃ t m, f = .numberParse t m) :
    (∃ r, validate_phone_number lib phone country = .ok r)
    ∧ ∀ r, validate_phone_number lib phone country = .ok r →
        ((∃ f, lib.parse
            (if pyStartsWith phone "+" = false ∧ optFalsy country = true
              then "+" ++ phone else phone) country = .error f) →
          r.is_valid = false ∧ r.is_possible = false ∧ r.country_code = none
            ∧ ∃ msg, r.error = some msg ∧ msg ≠ "")
        ∧ (r.error ≠ none ↔ ∃ f, lib.parse
            (if pyStartsWith phone "+" = false ∧ optFalsy country = true
              then "+" ++ phone else phone) country = .error f)
        ∧ ∀ n, lib.parse
            (if pyStartsWith phone "+" = false ∧ optFalsy country = true
              then "+" ++ phone else phone) country = .ok n →
          r.error = none ∧ r.country_code = lib.region_code_for_number n
            ∧ r.is_valid = lib.is_valid_number n
            ∧ r.is_possible = lib.is_possible_number n := by
  rcases hp : lib.parse
      (if pyStartsWith phone "+" = false ∧ optFalsy country = true
        then "+" ++ phone else phone) country with f | n
  · obtain ⟨t, m, rfl⟩ := hlib _ _ _ hp
    constructor
    · refine ⟨{ phone := if pyStartsWith phone "+" = false ∧ optFalsy country = true
                  then "+" ++ phone else phone,
                is_valid := false, is_possible := false, country_code := none,
                error := some (numberParseExceptionStr t m) }, ?_⟩
      simp only [validate_phone_number, hp]
    · intro r hr
      simp only [validate_phone_number, hp] at hr
      cases hr
      refine ⟨fun _ => ?_, ?_, fun k hk => ?_⟩
      · exact ⟨rfl, rfl, rfl, numberParseExceptionStr t m,
          rfl, numberParseExceptionStr_ne_empty t m⟩
      · simp only [ne_eq, reduceCtorEq, not_false_eq_true, true_iff]
        exact ⟨_, rfl⟩
      · simp at hk
  · constructor
    · refine ⟨{ phone := if pyStartsWith phone "+" = false ∧ optFalsy country = true
                  then "+" ++ phone else phone,
                is_valid := lib.is_valid_number n, is_possible := lib.is_possible_number n,
                country_code := lib.region_code_for_number n, error := none }, ?_⟩
      simp only [validate_phone_number, hp]
    · intro r hr
      simp only [validate_phone_number, hp] at hr
      cases hr
      refine ⟨fun hf => ?_, ?_, fun m hm => ?_⟩
      · obtain ⟨f, hf⟩ := hf
        simp at hf
      · constructor
        · intro he
          exact absurd rfl he
        · intro ⟨f, hf⟩
          simp at hf
      · cases hm
        exact ⟨rfl, rfl, rfl, rfl⟩

/-- C1 witness: at a concrete malformed input (demoLib rejects every
string but "+14155552671") validate returns a failed record rather than
raising. -/
theorem C1_validate_amended_witness :
    ∃ r, validate_phone_number demoLib "not-a-number" none = .ok r :=
  (C1_validate_amended demoLib "not-a-number" none
    (fun p c f hf => by
      revert hf
      simp only [demoLib]
      split
      · intro hf
        cases hf
      · intro hf
        cases hf
        exact ⟨1, "Could not interpret numbers after plus-sign.", rfl⟩)).1

/-- C1 counterexample to the claim as stated: with the library behaviour
in which a parsed (possible but invalid) number has no inferable region,
validate returns a result with no error text — so no parse failure
occurred — and yet country_code is absent, refuting that country_code is
absent only on parse failure. -/
theorem C1_counterexample :
    validate_phone_number noRegionLib "+10000000000" none
      = Except.ok { phone := "+10000000000", is_valid := false, is_possible := true,
                    country_code := none, error := none } := by
  rfl

/-- C2: lookup answers 400 exactly when the (possibly "+"-coerced)
phone string fails to parse, 404 exactly when the parse succeeded but
the Country Metadata Resolver has no record for the inferred region
(including an uninferable region), and on success returns the composed
PhoneNumberInfo record of src/main.py lines 166-177. -/
theorem C2_lookup_error_contract {Num : Type} (lib : PhoneLib Num)
    (table : List CountryRecord) (phone : String) (country : Option String) :
    ((lookup_phone_number lib table phone country).status = 400
      ↔ ∃ f, lib.parse
          (if pyStartsWith phone "+" = false ∧ optFalsy country = true
            then "+" ++ phone else phone) country = .error f)
    ∧ ((lookup_phone_number lib table phone country).status = 404
      ↔ ∃ n, lib.parse
          (if pyStartsWith phone "+" = false ∧ optFalsy country = true
            then "+" ++ phone else phone) country = .ok n
          ∧ get_country_info table (lib.region_code_for_number n) = none)
    ∧ ∀ n rc cinfo, lib.parse
          (if pyStartsWith phone "+" = false ∧ optFalsy country = true
            then "+" ++ phone else phone) country = .ok n →
        lib.region_code_for_number n = some rc →
        get_country_info table (some rc) = some cinfo →
        lookup_phone_number lib table phone country
          = .ok { phone_number := lib.str n, country_code := rc,
                  country_name := cinfo.name, country_region := none,
                  number_type := get_number_type_name (lib.number_type n),
                  is_valid := lib.is_valid_number n,
                  is_possible := lib.is_possible_number n,
                  formatted_e164 := lib.format_number n PhoneNumberFormat.E164,
                  formatted_national := lib.format_number n PhoneNumberFormat.NATIONAL,
                  timezone := none } := by
  rcases hp : lib.parse
      (if pyStartsWith phone "+" = false ∧ optFalsy country = true
        then "+" ++ phone else phone) country with f | n
  · cases f with
    | numberParse t m =>
      refine ⟨?_, ?_, ?_⟩
      · simp [lookup_phone_number, hp, LookupResult.status]
      · simp [lookup_phone_number, hp, LookupResult.status]
      · intro n rc cinfo hn
        simp at hn
    | other m =>
      refine ⟨?_, ?_, ?_⟩
      · simp [lookup_phone_number, hp, LookupResult.status]
      · simp [lookup_phone_number, hp, LookupResult.status]
      · intro n rc cinfo hn
        simp at hn
  · rcases hrc : lib.region_code_for_number n with _ | rc
    · refine ⟨?_, ?_, ?_⟩
      · simp [lookup_phone_number, hp, hrc, LookupResult.status]
      · simp only [lookup_phone_number, hp, hrc, LookupResult.status]
        constructor
        · intro _
          exact ⟨n, rfl, by rw [hrc]; rfl⟩
        · intro _
          trivial
      · intro k rc cinfo hk hr
        cases hk
        rw [hrc] at hr
        cases hr
    · rcases hci : get_country_info table (some rc) with _ | cinfo
      · refine ⟨?_, ?_, ?_⟩
        · simp [lookup_phone_number, hp, hrc, hci, LookupResult.status]
        · simp only [lookup_phone_number, hp, hrc, hci, LookupResult.status]
          constructor
          · intro _
            exact ⟨n, rfl, by rw [hrc]; exact hci⟩
          · intro _
            trivial
        · intro k rc2 cinfo2 hk hr2 hc2
          cases hk
          rw [hrc] at hr2
          cases hr2
          rw [hci] at hc2
          cases hc2
      · refine ⟨?_, ?_, ?_⟩
        · simp [lookup_phone_number, hp, hrc, hci, LookupResult.status]
        · simp only [lookup_phone_number, hp, hrc, hci, LookupResult.status]
          constructor
          · intro h
            cases h
          · intro ⟨k, hk, hck⟩
            cases hk
            rw [hrc] at hck
            rw [hci] at hck
            cases hck
        · intro k rc2 cinfo2 hk hr2 hc2
          cases hk
          rw [hrc] at hr2
          cases hr2
          rw [hci] at hc2
          cases hc2
          simp [lookup_phone_number, hp, hrc, hci]

/-- C2 witness: the scenario lookup("+14155552671") at the concrete
library and table instances returns the composed record. -/
theorem C2_lookup_error_contract_witness :
    lookup_phone_number demoLib demoTable "+14155552671" none = .ok demoInfo :=
  (C2_lookup_error_contract demoLib demoTable "+14155552671" none).2.2
    () "US" demoUSInfo rfl rfl (by decide)

/-- C4: when the library's validity check is at least as strict as its
possibility check (the documented relation between the two), every
record produced by lookup or validate has is_valid implying
is_possible. -/
theorem C4_valid_implies_possible {Num : Type} (lib : PhoneLib Num)
    (table : List CountryRecord) (phone : String) (country : Option String)
    (hlib : ∀ n, lib.is_valid_number n = true → lib.is_possible_number n = true) :
    (∀ info, lookup_phone_number lib table phone country = .ok info →
        info.is_valid = true → info.is_possible = true)
    ∧ ∀ r, validate_phone_number lib phone country = .ok r →
        r.is_valid = true → r.is_possible = true := by
  constructor
  · intro info hinfo hv
    rcases hp : lib.parse
        (if pyStartsWith phone "+" = false ∧ optFalsy country = true
          then "+" ++ phone else phone) country with f | n
    · cases f with
      | numberParse t m => simp [lookup_phone_number, hp] at hinfo
      | other m => simp [lookup_phone_number, hp] at hinfo
    · rcases hrc : lib.region_code_for_number n with _ | rc
      · simp [lookup_phone_number, hp, hrc] at hinfo
      · rcases hci : get_country_info table (some rc) with _ | cinfo
        · simp [lookup_phone_number, hp, hrc, hci] at hinfo
        · simp only [lookup_phone_number, hp, hrc, hci] at hinfo
          cases hinfo
          exact hlib n hv
  · intro r hr hv
    rcases hp : lib.parse
        (if pyStartsWith phone "+" = false ∧ optFalsy country = true
          then "+" ++ phone else phone) country with f | n
    · cases f with
      | numberParse t m =>
        simp only [validate_phone_number, hp] at hr
        cases hr
        cases hv
      | other m => simp [validate_phone_number, hp] at hr
    · simp only [validate_phone_number, hp] at hr
      cases hr
      exact hlib n hv

/-- C4 witness: at the concrete instances, the looked-up record for
"+14155552671" is valid, hence possible. -/
theorem C4_valid_implies_possible_witness :
    demoInfo.is_possible = true :=
  (C4_valid_implies_possible demoLib demoTable "+14155552671" none
    (fun _ h => h)).1 demoInfo (by decide) rfl

/-- C9: every successful lookup result carries, for the number the
parse produced, the library's string rendering in phone_number and the
library's E.164 formatting in formatted_e164; when the library's E.164
formatter meets the E.164 shape contract ("+" then digits only), so
does the returned field. -/
theorem C9_canonical_forms {Num : Type} (lib : PhoneLib Num)
    (table : List CountryRecord) (phone : String) (country : Option String)
    (hfmt : ∀ n, isE164Shape (lib.format_number n PhoneNumberFormat.E164) = true) :
    ∀ info, lookup_phone_number lib table phone country = .ok info →
      (∃ n, lib.parse
          (if pyStartsWith phone "+" = false ∧ optFalsy country = true
            then "+" ++ phone else phone) country = .ok n
        ∧ info.phone_number = lib.str n
        ∧ info.formatted_e164 = lib.format_number n PhoneNumberFormat.E164)
      ∧ isE164Shape info.formatted_e164 = true := by
  intro info hinfo
  rcases hp : lib.parse
      (if pyStartsWith phone "+" = false ∧ optFalsy country = true
        then "+" ++ phone else phone) country with f | n
  · cases f with
    | numberParse t m => simp [lookup_phone_number, hp] at hinfo
    | other m => simp [lookup_phone_number, hp] at hinfo
  · rcases hrc : lib.region_code_for_number n with _ | rc
    · simp [lookup_phone_number, hp, hrc] at hinfo
    · rcases hci : get_country_info table (some rc) with _ | cinfo
      · simp [lookup_phone_number, hp, hrc, hci] at hinfo
      · simp only [lookup_phone_number, hp, hrc, hci] at hinfo
        cases hinfo
        exact ⟨⟨n, rfl, rfl, rfl⟩, hfmt n⟩

/-- C9 witness: at the concrete instances the successful lookup of
"+14155552671" has the canonical forms, and the E.164 field has the
E.164 shape. -/
theorem C9_canonical_forms_witness :
    isE164Shape demoInfo.formatted_e164 = true :=
  ((C9_canonical_forms demoLib demoTable "+14155552671" none
    (fun n => by cases n; decide)) demoInfo (by decide)).2

/-- C10: when the coerced phone string parses but the library infers no
region code, the resolver converts the absent code (the caught
AttributeError of uppercasing python None) into an absent record and
lookup answers 404 with detail naming the absent code — not a parse or
internal error. -/
theorem C10_no_region_is_404 {Num : Type} (lib : PhoneLib Num)
    (table : List CountryRecord) (phone : String) (country : Option String)
    (n : Num)
    (hparse : lib.parse
        (if pyStartsWith phone "+" = false ∧ optFalsy country = true
          then "+" ++ phone else phone) country = .ok n)
    (hregion : lib.region_code_for_number n = none) :
    get_country_info table none = none
    ∧ lookup_phone_number lib table phone country
        = .error 404 "Country not found: None" := by
  refine ⟨rfl, ?_⟩
  simp [lookup_phone_number, hparse, hregion, pyStrOpt]

/-- C10 witness: with the concrete no-region library behaviour, lookup
of a parseable number answers 404. -/
theorem C10_no_region_is_404_witness :
    lookup_phone_number noRegionLib demoTable "+10000000000" none
      = .error 404 "Country not found: None" :=
  (C10_no_region_is_404 noRegionLib demoTable "+10000000000" none ()
    rfl rfl).2

theorem charListLe_total (a b : List Char) :
    (charListLe a b || charListLe b a) = true := by
  induction a generalizing b with
  | nil => simp [charListLe]
  | cons x xs ih =>
    cases b with
    | nil => simp [charListLe]
    | cons y ys =>
      simp only [charListLe]
      rcases lt_trichotomy x y with h | h | h
      · simp [h]
      · subst h
        simpa [lt_irrefl] using ih ys
      · have h1 : ¬ x < y := asymm h
        simp [h, h1]

theorem charListLe_trans (a b c : List Char) :
    charListLe a b = true → charListLe b c = true → charListLe a c = true := by
  induction a generalizing b c with
  | nil => intro _ _; rfl
  | cons x xs ih =>
    intro hab hbc
    cases b with
    | nil => simp [charListLe] at hab
    | cons y ys =>
      cases c with
      | nil => simp [charListLe] at hbc
      | cons z zs =>
        simp only [charListLe] at hab hbc ⊢
        rcases lt_trichotomy x y with hxy | hxy | hxy
        · rcases lt_trichotomy y z with hyz | hyz | hyz
          · rw [if_pos (lt_trans hxy hyz)]
          · subst hyz
            rw [if_pos hxy]
          · rw [if_neg (asymm hyz), if_pos hyz] at hbc
            cases hbc
        · subst hxy
          rw [if_neg (lt_irrefl x), if_neg (lt_irrefl x)] at hab
          rcases lt_trichotomy x z with hxz | hxz | hxz
          · rw [if_pos hxz]
          · subst hxz
            rw [if_neg (lt_irrefl x), if_neg (lt_irrefl x)] at hbc ⊢
            exact ih ys zs hab hbc
          · rw [if_neg (asymm hxz), if_pos hxz] at hbc
            cases hbc
        · rw [if_neg (asymm hxy), if_pos hxy] at hab
          cases hab

/-- C7: with pairwise-distinct alpha-2 codes in the external table (an
invariant of the ISO dataset), the listing response reports its length
as total, is a permutation of the projection of the whole table, is
sorted ascending by name (code-point lexicographic, python string
order), and repeats no alpha-2 code. -/
theorem C7_list_countries (table : List CountryRecord)
    (hnodup : (table.map (fun c => c.alpha_2)).Nodup) :
    (get_supported_countries table).total
      = (get_supported_countries table).countries.length
    ∧ ((get_supported_countries table).countries).Perm (table.map projectCountry)
    ∧ List.Pairwise (fun a b => charListLe a.name.data b.name.data = true)
        (get_supported_countries table).countries
    ∧ ((get_supported_countries table).countries.map (fun c => c.alpha_2)).Nodup := by
  refine ⟨rfl, ?_, ?_, ?_⟩
  · exact List.mergeSort_perm (table.map projectCountry) _
  · show List.Pairwise (fun a b => charListLe a.name.data b.name.data = true)
      ((table.map projectCountry).mergeSort
        (fun a b => charListLe a.name.data b.name.data))
    exact @List.sorted_mergeSort CountryInfo
      (fun a b => charListLe a.name.data b.name.data)
      (fun a b c hab hbc => charListLe_trans _ _ _ hab hbc)
      (fun a b => charListLe_total _ _)
      (table.map projectCountry)
  · have hperm : ((get_supported_countries table).countries.map (fun c => c.alpha_2)).Perm
        ((table.map projectCountry).map (fun c => c.alpha_2)) :=
      (List.mergeSort_perm (table.map projectCountry) _).map _
    rw [List.Perm.nodup_iff hperm, List.map_map]
    exact hnodup

/-- C7 witness: at the concrete two-record table, total equals the
length of the returned sequence. -/
theorem C7_list_countries_witness :
    (get_supported_countries demoTable).total
      = (get_supported_countries demoTable).countries.length :=
  (C7_list_countries demoTable (by decide)).1

theorem length_eraseP_add_one_of_find? {α : Type} (p : α → Bool) (l : List α)
    (e : α) (h : l.find? p = some e) : (l.eraseP p).length + 1 = l.length := by
  have hmem := List.mem_of_find?_eq_some h
  have hpred := List.find?_some h
  have hlene := List.length_eraseP_of_mem hmem hpred
  have hpos : 0 < l.length := List.length_pos_of_mem hmem
  omega

theorem cached_hit_of_head (table : List CountryRecord) (st2 : CacheState)
    (k : Option String) (e : Option String × Option CountryInfo)
    (rest : List (Option String × Option CountryInfo))
    (hst : st2.entries = e :: rest) (hk : (e.fst == k) = true) :
    (get_country_info_cached table st2 k).queried = false
    ∧ (get_country_info_cached table st2 k).value = e.snd := by
  have hfind : st2.entries.find? (fun x => x.fst == k) = some e := by
    rw [hst]
    exact List.find?_cons_of_pos rest hk
  constructor
  · simp only [get_country_info_cached, hfind]
  · simp only [get_country_info_cached, hfind]

/-- C3 (amended): the resolver normalizes to uppercase before the table
query (codes equal after uppercasing resolve to the same record), the
memoized value always equals the underlying pure query, two consecutive
calls with the SAME RAW code string hit the cache on the second call
and return identical records, and the cache never exceeds 256 entries;
the cache key is the raw argument, so calls whose codes agree only
after normalization each query the table (see the counterexample). -/
theorem C3_resolver_cache (table : List CountryRecord) (st : CacheState)
    (k : Option String)
    (hcons : CacheConsistent table st)
    (hlen : st.entries.length ≤ CACHE_MAXSIZE) :
    (∀ c1 c2 : String, pyUpper c1 = pyUpper c2 →
        get_country_info table (some c1) = get_country_info table (some c2))
    ∧ (get_country_info_cached table st k).value = get_country_info table k
    ∧ (get_country_info_cached table (get_country_info_cached table st k).state k).queried
        = false
    ∧ (get_country_info_cached table (get_country_info_cached table st k).state k).value
        = (get_country_info_cached table st k).value
    ∧ (get_country_info_cached table st k).state.entries.length ≤ CACHE_MAXSIZE := by
  refine ⟨?_, ?_⟩
  · intro c1 c2 h
    simp only [get_country_info]
    rw [h]
  rcases hfind : st.entries.find? (fun x => x.fst == k) with _ | e
  · -- cache miss: the body runs and the result is inserted at the front
    have hval : (get_country_info_cached table st k).value = get_country_info table k := by
      simp only [get_country_info_cached, hfind]
    have hstate : (get_country_info_cached table st k).state.entries
        = if CACHE_MAXSIZE < ((k, get_country_info table k) :: st.entries).length
          then ((k, get_country_info table k) :: st.entries).dropLast
          else (k, get_country_info table k) :: st.entries := by
      simp only [get_country_info_cached, hfind]
    by_cases hev : CACHE_MAXSIZE < ((k, get_country_info table k) :: st.entries).length
    · -- eviction: the list is nonempty twice over, the head survives dropLast
      have hne : st.entries ≠ [] := by
        intro hnil
        rw [hnil] at hev
        simp [CACHE_MAXSIZE] at hev
      rw [if_pos hev, List.dropLast_cons_of_ne_nil hne] at hstate
      have hhit := cached_hit_of_head table (get_country_info_cached table st k).state k
        (k, get_country_info table k) st.entries.dropLast hstate (by simp)
      refine ⟨hval, hhit.1, ?_, ?_⟩
      · rw [hhit.2, hval]
      · have hpos : 0 < st.entries.length := List.length_pos.mpr hne
        rw [hstate]
        simp only [List.length_cons, List.length_dropLast]
        omega
    · rw [if_neg hev] at hstate
      have hhit := cached_hit_of_head table (get_country_info_cached table st k).state k
        (k, get_country_info table k) st.entries hstate (by simp)
      refine ⟨hval, hhit.1, ?_, ?_⟩
      · rw [hhit.2, hval]
      · rw [hstate]
        simp only [List.length_cons] at hev ⊢
        omega
  · -- cache hit: the memoized value is returned and moved to the front
    have hk0 := List.find?_some hfind
    have hk : (e.fst == k) = true := hk0
    have hkeq : e.fst = k := eq_of_beq hk
    have hval : (get_country_info_cached table st k).value = get_country_info table k := by
      simp only [get_country_info_cached, hfind]
      rw [hcons e (List.mem_of_find?_eq_some hfind), hkeq]
    have hstate : (get_country_info_cached table st k).state.entries
        = (e.fst, e.snd) :: st.entries.eraseP (fun x => x.fst == k) := by
      simp only [get_country_info_cached, hfind]
    have hhit := cached_hit_of_head table (get_country_info_cached table st k).state k
      (e.fst, e.snd) (st.entries.eraseP (fun x => x.fst == k)) hstate hk
    refine ⟨hval, hhit.1, ?_, ?_⟩
    · rw [hhit.2]
      simp only [get_country_info_cached, hfind]
    · rw [hstate]
      simp only [List.length_cons]
      rw [length_eraseP_add_one_of_find? _ _ _ hfind]
      exact hlen

/-- C3 witness: a first call on the empty cache followed by a second
call with the identical raw code is a cache hit returning the same
record. -/
theorem C3_resolver_cache_witness :
    (get_country_info_cached demoTable
      (get_country_info_cached demoTable CacheState.empty (some "US")).state
      (some "US")).queried = false :=
  (C3_resolver_cache demoTable CacheState.empty (some "US")
    (fun e he => absurd he (by simp [CacheState.empty]))
    (by simp [CacheState.empty, CACHE_MAXSIZE])).2.2.1

/-- C3 counterexample to the claim as stated: two consecutive calls
with "us" and then "US" — the same normalized region code — both run
the underlying table query (the second call is a miss, queried = true),
because the lru_cache key is the raw argument and the uppercasing
happens inside the function body; the two calls do return identical
records. -/
theorem C3_counterexample :
    (get_country_info_cached demoTable
        (get_country_info_cached demoTable CacheState.empty (some "us")).state
        (some "US")).queried = true
    ∧ (get_country_info_cached demoTable
        (get_country_info_cached demoTable CacheState.empty (some "us")).state
        (some "US")).value
      = (get_country_info_cached demoTable CacheState.empty (some "us")).value := by
  constructor
  · decide
  · decide

end PhoneRecognizer
